import Mathlib

/-!
Shallow embedding of the contribution settlement engine of the
lumentix backend (file src/sponsors/contributions.service.ts, entity
src/sponsors/entities/sponsor-contribution.entity.ts).

Modelling conventions:
* Fixed-point decimal amounts (database column decimal(18,7), parsed in the
  service with parseFloat) are modelled as exact rationals (Rat).  The
  comparison epsilon 0.0000001 of the service is the rational 1/10000000.
* The persistent store (TypeORM repositories) is a record of lists; repository
  findOne is List.find?, the count query of assertCapacityAvailable is a
  List.filter length, and repository save on an entity that already has an id
  replaces every row with that primary key.
* The Stellar gateway (StellarService.getTransaction) and the secondary
  operations fetch are functions supplied in an environment record.  A
  transaction record carries its memo field (which in JavaScript may be
  absent, a non-string value, or a string) and the operations link
  (txRecord._links.operations?.href).
* Service methods that throw are modelled with Except; because failure
  branches of confirmContribution also write to the store (markFailed), both
  createIntent and confirmContribution return a pair of the call result and
  the resulting store state.
* confirmContribution is the sequential composition of confirmCheck (steps
  1-7 of the source, lines 103-189: everything up to and including the
  capacity re-check, which performs no store write on its success path) and
  confirmCommit (step 8, lines 191-205: the save of the confirmed row plus
  the audit event).  In the Node.js runtime the boundary between the two is
  an await suspension point, so steps of other in-flight invocations may be
  interleaved there.
-/

deriving instance DecidableEq for Except

inductive ContributionStatus
  | pending
  | confirmed
  | failed
deriving DecidableEq, Repr

structure SponsorTier where
  id : String
  name : String
  price : Rat
  maxSponsors : Nat
deriving DecidableEq, Repr

structure SponsorContribution where
  id : String
  sponsorId : String
  tierId : String
  amount : Rat
  transactionHash : Option String
  status : ContributionStatus
deriving DecidableEq, Repr

inductive AuditAction
  | paymentIntentCreated
  | paymentConfirmed
  | paymentFailed
deriving DecidableEq, Repr

inductive AuditMeta
  | intentMeta (tierId : String) (amount : Rat) (currency : String)
  | confirmMeta (transactionHash : String) (tierId : String) (amount : Rat)
  | failMeta (reason : String)
deriving DecidableEq, Repr

structure AuditEvent where
  action : AuditAction
  userId : String
  resourceId : String
  meta : AuditMeta
deriving DecidableEq, Repr

structure Store where
  tiers : List SponsorTier
  contributions : List SponsorContribution
  audits : List AuditEvent
deriving DecidableEq, Repr

inductive ServiceError
  | notFound (message : String)
  | badRequest (message : String)
  | conflict (message : String)
  | internalError
deriving DecidableEq, Repr

/-- The memo field of a fetched transaction record as JavaScript sees it:
absent (undefined), present but not a string, or a string. -/
inductive MemoField
  | absent
  | nonString
  | str (value : String)
deriving DecidableEq, Repr

structure PaymentOp where
  type : String
  -- the field named to in the source operation record
  destination : String
  amount : Rat
  asset_type : String
  asset_code : Option String
deriving DecidableEq, Repr

structure TxRecord where
  memo : MemoField
  operationsHref : Option String
deriving DecidableEq, Repr

/-- Outcome of the secondary fetch of the operations link: a thrown network
or body-parse failure, a non-ok HTTP response, or a parsed record list. -/
inductive FetchResult
  | fetchError
  | notOk
  | ok (records : List PaymentOp)
deriving DecidableEq, Repr

structure Env where
  escrowWallet : String
  getTransaction : String → Option TxRecord
  fetchOperations : String → FetchResult

def SUPPORTED_ASSETS : List String := ["XLM", "USDC"]

/-- The toUpperCase call of the asset check, written characterwise (core
String.toUpper maps Char.toUpper over the characters of the string; this
form reduces in the kernel). -/
def toUpperString (s : String) : String := String.mk (s.data.map Char.toUpper)

/-- The epsilon 0.0000001 of the amount comparison in confirmContribution. -/
def amountEpsilon : Rat := 1 / 10000000

/-- The count query of assertCapacityAvailable: confirmed contributions of
the tier, optionally excluding one id.  The source guards the exclusion with
JavaScript truthiness (if (excludeId) ...), so an empty-string excludeId
disables the exclusion. -/
def countConfirmed (st : Store) (tierId : String) (excludeId : Option String) : Nat :=
  (st.contributions.filter (fun c =>
    c.tierId == tierId && c.status == ContributionStatus.confirmed &&
      (match excludeId with
       | some e => if e == "" then true else c.id != e
       | none => true))).length

/-- assertCapacityAvailable (source lines 230-250): count confirmed
contributions for the tier and throw Conflict if at capacity. -/
def assertCapacityAvailable (st : Store) (tier : SponsorTier) (excludeId : Option String) :
    Except ServiceError Unit :=
  let confirmedCount := countConfirmed st tier.id excludeId
  if tier.maxSponsors ≤ confirmedCount then
    Except.error (ServiceError.conflict ("Sponsor tier \"" ++ tier.name ++ "\" is full (" ++
      toString tier.maxSponsors ++ "/" ++ toString tier.maxSponsors ++ " spots taken)."))
  else
    Except.ok ()

/-- getTierById (source lines 218-224). -/
def getTierById (st : Store) (id : String) : Except ServiceError SponsorTier :=
  match st.tiers.find? (fun t => t.id == id) with
  | some tier => Except.ok tier
  | none => Except.error (ServiceError.notFound ("Sponsor tier \"" ++ id ++ "\" not found."))

structure ContributionIntent where
  contributionId : String
  escrowWallet : String
  amount : Rat
  currency : String
  memo : String
deriving DecidableEq, Repr

/-- createIntent (source lines 57-97).  The database-generated primary key of
the inserted row is the explicit argument newId. -/
def createIntent (env : Env) (st : Store) (tierId sponsorId newId : String) :
    Except ServiceError ContributionIntent × Store :=
  match getTierById st tierId with
  | Except.error e => (Except.error e, st)
  | Except.ok tier =>
    match assertCapacityAvailable st tier none with
    | Except.error e => (Except.error e, st)
    | Except.ok _ =>
      let contribution : SponsorContribution :=
        { id := newId, sponsorId := sponsorId, tierId := tierId,
          amount := tier.price, transactionHash := none,
          status := ContributionStatus.pending }
      let st1 : Store := { st with contributions := st.contributions ++ [contribution] }
      let st2 : Store := { st1 with audits := st1.audits ++
          [{ action := AuditAction.paymentIntentCreated, userId := sponsorId,
             resourceId := newId,
             meta := AuditMeta.intentMeta tierId tier.price "XLM" }] }
      (Except.ok { contributionId := newId, escrowWallet := env.escrowWallet,
                   amount := tier.price, currency := "XLM", memo := newId }, st2)

/-- The memo guard of confirmContribution (source lines 117-124): memoValue
is the memo field if it is a string, undefined otherwise, and the guard
if (!memoValue) also rejects the empty string, which is falsy in
JavaScript. -/
def extractMemo (txRecord : TxRecord) : Option String :=
  match txRecord.memo with
  | MemoField.str value => if value == "" then none else some value
  | _ => none

/-- resolvePaymentOperations (source lines 252-271): follow the operations
link of the transaction record; a missing link, a non-ok response or a thrown
failure all yield the empty list; otherwise keep the payment and
create_account operations. -/
def resolvePaymentOperations (env : Env) (txRecord : TxRecord) : List PaymentOp :=
  match txRecord.operationsHref with
  | none => []
  | some href =>
    match env.fetchOperations href with
    | FetchResult.fetchError => []
    | FetchResult.notOk => []
    | FetchResult.ok records =>
      records.filter (fun op => op.type == "payment" || op.type == "create_account")

/-- Repository save of an entity whose primary key already exists: replace
every row carrying that id. -/
def saveContribution (st : Store) (c : SponsorContribution) : Store :=
  { st with contributions := st.contributions.map (fun x => if x.id == c.id then c else x) }

/-- markFailed (source lines 273-290): set the status to failed, save, and
record a payment-failed audit event carrying the reason. -/
def markFailed (st : Store) (contribution : SponsorContribution) (reason : String) : Store :=
  let failedContribution := { contribution with status := ContributionStatus.failed }
  let st1 := saveContribution st failedContribution
  { st1 with audits := st1.audits ++
      [{ action := AuditAction.paymentFailed, userId := contribution.sponsorId,
         resourceId := contribution.id, meta := AuditMeta.failMeta reason }] }

/-- Steps 1-7 of confirmContribution (source lines 103-189): transaction
lookup, memo guard, correlation with a pending contribution, operation
resolution, destination match, asset check, amount check, and the capacity
re-check excluding the current contribution id.  On success it returns the
correlated contribution and has performed no store write; on failure it
returns the error together with the store state (possibly updated by
markFailed).  The tier relation loaded by findOne is read here when the
capacity re-check needs it; a dangling tier reference would crash the
JavaScript service (tier.id on undefined), modelled as internalError. -/
def confirmCheck (env : Env) (st : Store) (transactionHash : String) :
    Except ServiceError SponsorContribution × Store :=
  match env.getTransaction transactionHash with
  | none =>
    (Except.error (ServiceError.badRequest ("Transaction \"" ++ transactionHash ++
      "\" not found on the Stellar network.")), st)
  | some txRecord =>
    match extractMemo txRecord with
    | none =>
      (Except.error (ServiceError.badRequest
        "Transaction memo is missing. Cannot correlate with a contribution intent."), st)
    | some memoValue =>
      match st.contributions.find? (fun c =>
          c.id == memoValue && c.status == ContributionStatus.pending) with
      | none =>
        (Except.error (ServiceError.notFound
          ("No pending contribution found for memo \"" ++ memoValue ++ "\".")), st)
      | some contribution =>
        if (resolvePaymentOperations env txRecord).isEmpty then
          (Except.error (ServiceError.badRequest "Transaction contains no payment operations."),
           markFailed st contribution "No payment operations in transaction.")
        else
          match (resolvePaymentOperations env txRecord).find?
              (fun op => op.destination == env.escrowWallet) with
          | none =>
            (Except.error (ServiceError.badRequest
              "Payment destination does not match the escrow wallet."),
             markFailed st contribution
               ("Incorrect destination. Expected " ++ env.escrowWallet ++ "."))
          | some matchingOp =>
            if !(SUPPORTED_ASSETS.contains (toUpperString
                (if matchingOp.asset_type == "native" then "XLM"
                 else matchingOp.asset_code.getD ""))) then
              (Except.error (ServiceError.badRequest ("Asset \"" ++
                (if matchingOp.asset_type == "native" then "XLM"
                 else matchingOp.asset_code.getD "") ++ "\" is not supported.")),
               markFailed st contribution ("Unsupported asset \"" ++
                (if matchingOp.asset_type == "native" then "XLM"
                 else matchingOp.asset_code.getD "") ++ "\"."))
            else
              if amountEpsilon < |matchingOp.amount - contribution.amount| then
                (Except.error (ServiceError.badRequest
                  ("Incorrect contribution amount. Expected " ++ toString contribution.amount ++
                   ", received " ++ toString matchingOp.amount ++ ".")),
                 markFailed st contribution
                  ("Incorrect amount. Expected " ++ toString contribution.amount ++
                   ", got " ++ toString matchingOp.amount ++ "."))
              else
                match st.tiers.find? (fun t => t.id == contribution.tierId) with
                | none => (Except.error ServiceError.internalError, st)
                | some tier =>
                  match assertCapacityAvailable st tier (some contribution.id) with
                  | Except.error e => (Except.error e, st)
                  | Except.ok _ => (Except.ok contribution, st)

/-- Step 8 of confirmContribution (source lines 191-205): set the transaction
hash and the confirmed status, save, and record the payment-confirmed audit
event. -/
def confirmCommit (st : Store) (transactionHash : String)
    (contribution : SponsorContribution) : SponsorContribution × Store :=
  let confirmed := { contribution with
    transactionHash := some transactionHash,
    status := ContributionStatus.confirmed }
  let st1 := saveContribution st confirmed
  (confirmed, { st1 with audits := st1.audits ++
      [{ action := AuditAction.paymentConfirmed, userId := contribution.sponsorId,
         resourceId := contribution.id,
         meta := AuditMeta.confirmMeta transactionHash contribution.tierId
           contribution.amount }] })

/-- confirmContribution (source lines 103-212): the validation phase followed
by the commit phase.  The boundary between the two phases is an await
suspension point of the Node.js runtime. -/
def confirmContribution (env : Env) (st : Store) (transactionHash : String) :
    Except ServiceError SponsorContribution × Store :=
  match confirmCheck env st transactionHash with
  | (Except.error e, st1) => (Except.error e, st1)
  | (Except.ok contribution, st1) =>
    let r := confirmCommit st1 transactionHash contribution
    (Except.ok r.1, r.2)

/-- A contribution carries a transaction hash only once confirmed. -/
def HashInv (st : Store) : Prop :=
  ∀ c ∈ st.contributions, c.transactionHash ≠ none → c.status = ContributionStatus.confirmed

/-!
Concrete scenario data for the closed instances below.  tierGold is the
boundary tier of the specification scenarios: price 100, one sponsor slot.
-/

def tierGold : SponsorTier := { id := "t1", name := "Gold", price := 100, maxSponsors := 1 }

def raceC1 : SponsorContribution :=
  { id := "c1", sponsorId := "s1", tierId := "t1", amount := 100,
    transactionHash := none, status := ContributionStatus.pending }

def raceC2 : SponsorContribution :=
  { id := "c2", sponsorId := "s2", tierId := "t1", amount := 100,
    transactionHash := none, status := ContributionStatus.pending }

/-- A native-asset payment of 100 to the escrow wallet of the scenarios. -/
def opNative : PaymentOp :=
  { type := "payment", destination := "GESCROW", amount := 100,
    asset_type := "native", asset_code := none }

def txForMemo (m : String) : TxRecord :=
  { memo := MemoField.str m, operationsHref := some "ops" }

/-- Two pending contributions competing for the single slot of tierGold. -/
def raceStore : Store := { tiers := [tierGold], contributions := [raceC1, raceC2], audits := [] }

def raceEnv : Env :=
  { escrowWallet := "GESCROW",
    getTransaction := fun h => if h == "h1" then some (txForMemo "c1")
      else if h == "h2" then some (txForMemo "c2") else none,
    fetchOperations := fun _ => FetchResult.ok [opNative] }

/-- A contribution already holding the single slot of tierGold. -/
def holderC9 : SponsorContribution :=
  { id := "c9", sponsorId := "s9", tierId := "t1", amount := 100,
    transactionHash := some "h9", status := ContributionStatus.confirmed }

/-- tierGold at capacity: one confirmed contribution, raceC1 still pending. -/
def fullStore : Store := { tiers := [tierGold], contributions := [raceC1, holderC9], audits := [] }

/-- A payment whose amount is off the frozen amount of raceC1 by 1/1000000. -/
def opOffByMicro : PaymentOp :=
  { type := "payment", destination := "GESCROW", amount := 100 + 1 / 1000000,
    asset_type := "native", asset_code := none }

def microEnv : Env :=
  { escrowWallet := "GESCROW",
    getTransaction := fun h => if h == "h1" then some (txForMemo "c1") else none,
    fetchOperations := fun _ => FetchResult.ok [opOffByMicro] }

def replayEnv : Env :=
  { escrowWallet := "GESCROW",
    getTransaction := fun h => if h == "h9" then some (txForMemo "c9") else none,
    fetchOperations := fun _ => FetchResult.ok [opNative] }

def emptyMemoTx : TxRecord := { memo := MemoField.str "", operationsHref := some "ops" }

def emptyMemoEnv : Env :=
  { escrowWallet := "GESCROW",
    getTransaction := fun h => if h == "h0" then some emptyMemoTx else none,
    fetchOperations := fun _ => FetchResult.ok [opNative] }

def absentMemoTx : TxRecord := { memo := MemoField.absent, operationsHref := some "ops" }

def absentMemoEnv : Env :=
  { escrowWallet := "GESCROW",
    getTransaction := fun h => if h == "hA" then some absentMemoTx else none,
    fetchOperations := fun _ => FetchResult.ok [opNative] }

/-- A payment whose destination is not the escrow wallet of the scenarios. -/
def opWrongDest : PaymentOp :=
  { type := "payment", destination := "GOTHER", amount := 100,
    asset_type := "native", asset_code := none }

def wrongDestEnv : Env :=
  { escrowWallet := "GESCROW",
    getTransaction := fun h => if h == "h1" then some (txForMemo "c1") else none,
    fetchOperations := fun _ => FetchResult.ok [opWrongDest] }

def notOkEnv : Env :=
  { escrowWallet := "GESCROW",
    getTransaction := fun h => if h == "h1" then some (txForMemo "c1") else none,
    fetchOperations := fun _ => FetchResult.notOk }

/-- The empty shop of the race scenario: only tierGold, no contributions. -/
def emptyStore : Store := { tiers := [tierGold], contributions := [], audits := [] }

/-- Store after sponsor s1 creates an intent on tierGold. -/
def intentStore1 : Store := (createIntent raceEnv emptyStore "t1" "s1" "c1").2

/-- Store after sponsor s2 also creates an intent on tierGold: two pending
contributions compete for the single slot. -/
def intentStore2 : Store := (createIntent raceEnv intentStore1 "t1" "s2" "c2").2

/-- Claim C3: for every tier whose count of confirmed contributions is at or
above its maxSponsors, createIntent fails with Conflict and the store is
unchanged, so no contribution record and no audit event is persisted. -/
theorem createIntent_full_tier_conflict (env : Env) (st : Store)
    (tierId sponsorId newId : String) (tier : SponsorTier)
    (hfind : st.tiers.find? (fun t => t.id == tierId) = some tier)
    (hfull : tier.maxSponsors ≤ countConfirmed st tier.id none) :
    createIntent env st tierId sponsorId newId =
      (Except.error (ServiceError.conflict ("Sponsor tier \"" ++ tier.name ++ "\" is full (" ++
        toString tier.maxSponsors ++ "/" ++ toString tier.maxSponsors ++ " spots taken)."))
       , st) := by
  simp only [createIntent, getTierById, hfind, assertCapacityAvailable]
  rw [if_pos hfull]

/-- Witness for claim C3: tierGold has one slot and fullStore already holds
one confirmed contribution, so a new intent is refused and the store is
untouched. -/
theorem createIntent_full_tier_conflict_witness :
    createIntent raceEnv fullStore "t1" "s3" "c3" =
      (Except.error (ServiceError.conflict ("Sponsor tier \"" ++ tierGold.name ++
        "\" is full (" ++ toString tierGold.maxSponsors ++ "/" ++
        toString tierGold.maxSponsors ++ " spots taken)."))
       , fullStore) :=
  createIntent_full_tier_conflict raceEnv fullStore "t1" "s3" "c3" tierGold
    (by decide) (by decide)

/-- Claim C5: for an existing tier with a free slot, createIntent returns an
intent whose memo equals the identifier of the newly created contribution,
whose amount is the current tier price and whose currency is the fixed
native asset code XLM; the persisted contribution is pending, has no
transaction hash and carries that same price as its amount. -/
theorem createIntent_success_shape (env : Env) (st : Store)
    (tierId sponsorId newId : String) (tier : SponsorTier)
    (hfind : st.tiers.find? (fun t => t.id == tierId) = some tier)
    (hcap : countConfirmed st tier.id none < tier.maxSponsors) :
    createIntent env st tierId sponsorId newId =
      (Except.ok { contributionId := newId, escrowWallet := env.escrowWallet,
                   amount := tier.price, currency := "XLM", memo := newId },
       { tiers := st.tiers,
         contributions := st.contributions ++
           [{ id := newId, sponsorId := sponsorId, tierId := tierId,
              amount := tier.price, transactionHash := none,
              status := ContributionStatus.pending }],
         audits := st.audits ++
           [{ action := AuditAction.paymentIntentCreated, userId := sponsorId,
              resourceId := newId,
              meta := AuditMeta.intentMeta tierId tier.price "XLM" }] }) := by
  simp only [createIntent, getTierById, hfind, assertCapacityAvailable]
  rw [if_neg (not_le.mpr hcap)]

/-- Witness for claim C5: a fresh intent on tierGold in raceStore. -/
theorem createIntent_success_shape_witness :
    createIntent raceEnv raceStore "t1" "s5" "c5" =
      (Except.ok { contributionId := "c5", escrowWallet := raceEnv.escrowWallet,
                   amount := tierGold.price, currency := "XLM", memo := "c5" },
       { tiers := raceStore.tiers,
         contributions := raceStore.contributions ++
           [{ id := "c5", sponsorId := "s5", tierId := "t1",
              amount := tierGold.price, transactionHash := none,
              status := ContributionStatus.pending }],
         audits := raceStore.audits ++
           [{ action := AuditAction.paymentIntentCreated, userId := "s5",
              resourceId := "c5",
              meta := AuditMeta.intentMeta "t1" tierGold.price "XLM" }] }) :=
  createIntent_success_shape raceEnv raceStore "t1" "s5" "c5" tierGold
    (by decide) (by decide)

/-- Claim C2: once every payment validation of confirmContribution has
passed, the capacity check is re-run against the tier of the contribution,
counting confirmed contributions while excluding the current contribution id
(hypothesis hfull); at or above maxSponsors the call fails with Conflict and
the returned store is exactly the input store, so the correlated contribution
(which hfind shows is pending) is left pending with no field changed and is
not marked failed. -/
theorem confirm_capacity_recheck_conflict (env : Env) (st : Store) (h : String)
    (tx : TxRecord) (m : String) (c : SponsorContribution) (op : PaymentOp)
    (tier : SponsorTier)
    (hget : env.getTransaction h = some tx)
    (hmemo : extractMemo tx = some m)
    (hfind : st.contributions.find?
      (fun x => x.id == m && x.status == ContributionStatus.pending) = some c)
    (hops : (resolvePaymentOperations env tx).isEmpty = false)
    (hdest : (resolvePaymentOperations env tx).find?
      (fun x => x.destination == env.escrowWallet) = some op)
    (hasset : SUPPORTED_ASSETS.contains (toUpperString
      (if op.asset_type == "native" then "XLM" else op.asset_code.getD "")) = true)
    (hamount : |op.amount - c.amount| ≤ amountEpsilon)
    (htier : st.tiers.find? (fun t => t.id == c.tierId) = some tier)
    (hfull : tier.maxSponsors ≤ countConfirmed st tier.id (some c.id)) :
    confirmContribution env st h =
      (Except.error (ServiceError.conflict ("Sponsor tier \"" ++ tier.name ++
        "\" is full (" ++ toString tier.maxSponsors ++ "/" ++ toString tier.maxSponsors ++
        " spots taken)."))
       , st) ∧
    c.status = ContributionStatus.pending := by
  constructor
  · have hcheck : confirmCheck env st h =
        (Except.error (ServiceError.conflict ("Sponsor tier \"" ++ tier.name ++
          "\" is full (" ++ toString tier.maxSponsors ++ "/" ++ toString tier.maxSponsors ++
          " spots taken)."))
         , st) := by
      have hasset2 : toUpperString (if op.asset_type = "native" then "XLM"
          else op.asset_code.getD "") ∈ SUPPORTED_ASSETS := by
        simpa using hasset
      simp [confirmCheck, hget, hmemo, hfind, hops, hdest, hasset2, htier,
        assertCapacityAvailable, hfull, not_lt.mpr hamount]
    simp [confirmContribution, hcheck]
  · have hp := List.find?_some hfind
    simp only [Bool.and_eq_true, beq_iff_eq] at hp
    exact hp.2

/-- Witness for claim C2: raceC1 is pending in fullStore, its payment is
valid, but holderC9 already holds the single slot of tierGold, so the
confirmation fails with Conflict and fullStore is returned unchanged. -/
theorem confirm_capacity_recheck_conflict_witness :
    confirmContribution raceEnv fullStore "h1" =
      (Except.error (ServiceError.conflict ("Sponsor tier \"" ++ tierGold.name ++
        "\" is full (" ++ toString tierGold.maxSponsors ++ "/" ++
        toString tierGold.maxSponsors ++ " spots taken)."))
       , fullStore) ∧
    raceC1.status = ContributionStatus.pending :=
  confirm_capacity_recheck_conflict raceEnv fullStore "h1" (txForMemo "c1") "c1"
    raceC1 opNative tierGold (by decide) (by decide) (by decide) (by decide)
    (by decide) (by decide) (by norm_num [opNative, raceC1, amountEpsilon])
    (by decide) (by decide)

/-- Claim C4: once the pipeline of confirmContribution has reached the amount
check (transaction found, memo correlated to pending contribution c, payment
operation op selected and its asset accepted), the call fails with the
amount-mismatch BadRequest, marking the contribution failed with a reason
stating both values, exactly when the absolute difference between the
on-chain amount op.amount and the amount c.amount frozen at intent time
exceeds the epsilon 1/10000000.  The tier and its live price do not occur in
the comparison: the statement holds for every store, whatever price the tier
row carries, so a difference of 1/100000000 passes and a difference of
1/1000000 fails. -/
theorem confirm_amount_exact_within_epsilon (env : Env) (st : Store) (h : String)
    (tx : TxRecord) (m : String) (c : SponsorContribution) (op : PaymentOp)
    (hget : env.getTransaction h = some tx)
    (hmemo : extractMemo tx = some m)
    (hfind : st.contributions.find?
      (fun x => x.id == m && x.status == ContributionStatus.pending) = some c)
    (hops : (resolvePaymentOperations env tx).isEmpty = false)
    (hdest : (resolvePaymentOperations env tx).find?
      (fun x => x.destination == env.escrowWallet) = some op)
    (hasset : SUPPORTED_ASSETS.contains (toUpperString
      (if op.asset_type == "native" then "XLM" else op.asset_code.getD "")) = true) :
    confirmContribution env st h =
      (Except.error (ServiceError.badRequest
        ("Incorrect contribution amount. Expected " ++ toString c.amount ++
         ", received " ++ toString op.amount ++ ".")),
       markFailed st c
        ("Incorrect amount. Expected " ++ toString c.amount ++
         ", got " ++ toString op.amount ++ "."))
    ↔ amountEpsilon < |op.amount - c.amount| := by
  have hasset2 : toUpperString (if op.asset_type = "native" then "XLM"
      else op.asset_code.getD "") ∈ SUPPORTED_ASSETS := by simpa using hasset
  by_cases hlt : amountEpsilon < |op.amount - c.amount|
  · have hcheck : confirmCheck env st h =
        (Except.error (ServiceError.badRequest
          ("Incorrect contribution amount. Expected " ++ toString c.amount ++
           ", received " ++ toString op.amount ++ ".")),
         markFailed st c
          ("Incorrect amount. Expected " ++ toString c.amount ++
           ", got " ++ toString op.amount ++ ".")) := by
      simp [confirmCheck, hget, hmemo, hfind, hops, hdest, hasset2, hlt]
    constructor
    · intro _; exact hlt
    · intro _; simp [confirmContribution, hcheck]
  · constructor
    · intro heq
      exfalso
      have hcheck : confirmCheck env st h =
          (match st.tiers.find? (fun t => t.id == c.tierId) with
           | none => (Except.error ServiceError.internalError, st)
           | some tier =>
             match assertCapacityAvailable st tier (some c.id) with
             | Except.error e => (Except.error e, st)
             | Except.ok _ => (Except.ok c, st)) := by
        simp [confirmCheck, hget, hmemo, hfind, hops, hdest, hasset2, hlt]
      rw [confirmContribution, hcheck] at heq
      cases hft : st.tiers.find? (fun t => t.id == c.tierId) with
      | none => rw [hft] at heq; simp at heq
      | some tier =>
        rw [hft] at heq
        simp only [assertCapacityAvailable] at heq
        by_cases hcapc : tier.maxSponsors ≤ countConfirmed st tier.id (some c.id)
        · rw [if_pos hcapc] at heq; simp at heq
        · rw [if_neg hcapc] at heq; simp at heq
    · intro hl; exact absurd hl hlt

/-- Witness for claim C4: the on-chain amount differs from the frozen amount
by 1/1000000, above the epsilon, so the confirmation fails with the
amount-mismatch BadRequest and the contribution is marked failed with a
reason stating both values. -/
theorem confirm_amount_exact_within_epsilon_witness :
    confirmContribution microEnv raceStore "h1" =
      (Except.error (ServiceError.badRequest
        ("Incorrect contribution amount. Expected " ++ toString raceC1.amount ++
         ", received " ++ toString opOffByMicro.amount ++ ".")),
       markFailed raceStore raceC1
        ("Incorrect amount. Expected " ++ toString raceC1.amount ++
         ", got " ++ toString opOffByMicro.amount ++ ".")) :=
  (confirm_amount_exact_within_epsilon microEnv raceStore "h1" (txForMemo "c1") "c1"
    raceC1 opOffByMicro (by decide) (by decide) (by decide) (by decide) rfl
    (by decide)).mpr (by
      have habs : |opOffByMicro.amount - raceC1.amount| = 1 / 1000000 := by
        rw [show opOffByMicro.amount - raceC1.amount = 1 / 1000000 by
          norm_num [opOffByMicro, raceC1]]
        exact abs_of_pos (by norm_num)
      rw [habs]
      norm_num [amountEpsilon])

/-- Claim C6: confirmContribution correlates the fetched transaction to a
contribution exactly through the lookup of a contribution whose identifier
equals the memo value and whose status is currently pending; whenever no such
contribution exists (in particular when the contribution carrying that
identifier is already confirmed or already failed) the call fails with
NotFound and the store is unchanged, so a replayed confirmation of an
already-confirmed contribution fails with NotFound.  Conversely any
correlated contribution has the memo as its identifier, is pending, and is a
row of the store. -/
theorem confirm_correlation_pending_only (env : Env) (st : Store) (h : String)
    (tx : TxRecord) (m : String)
    (hget : env.getTransaction h = some tx)
    (hmemo : extractMemo tx = some m) :
    (st.contributions.find?
        (fun x => x.id == m && x.status == ContributionStatus.pending) = none →
      confirmContribution env st h =
        (Except.error (ServiceError.notFound
          ("No pending contribution found for memo \"" ++ m ++ "\".")), st)) ∧
    (∀ c, st.contributions.find?
        (fun x => x.id == m && x.status == ContributionStatus.pending) = some c →
      c.id = m ∧ c.status = ContributionStatus.pending ∧ c ∈ st.contributions) := by
  constructor
  · intro hnone
    have hcheck : confirmCheck env st h =
        (Except.error (ServiceError.notFound
          ("No pending contribution found for memo \"" ++ m ++ "\".")), st) := by
      simp [confirmCheck, hget, hmemo, hnone]
    simp [confirmContribution, hcheck]
  · intro c hc
    have hp := List.find?_some hc
    have hm := List.mem_of_find?_eq_some hc
    simp only [Bool.and_eq_true, beq_iff_eq] at hp
    exact ⟨hp.1, hp.2, hm⟩

/-- Witness for claim C6: holderC9 is already confirmed in fullStore, so a
second confirmation whose transaction memo is its identifier c9 finds no
pending contribution and fails with NotFound, leaving the store unchanged. -/
theorem confirm_correlation_pending_only_witness :
    confirmContribution replayEnv fullStore "h9" =
      (Except.error (ServiceError.notFound
        ("No pending contribution found for memo \"" ++ "c9" ++ "\".")), fullStore) :=
  (confirm_correlation_pending_only replayEnv fullStore "h9" (txForMemo "c9") "c9"
    (by decide) (by decide)).1 (by decide)

/-- Counterexample to claim C7 as stated: the claim says the memo-extraction
stage fails with BadRequest exactly when the fetched transaction record memo
is absent or not a string.  Here the fetched record emptyMemoTx carries a
memo that is present and is a string (the empty string), yet the call fails
with the memo-missing BadRequest, because the source guard if (!memoValue)
also treats the empty string as falsy in JavaScript. -/
theorem confirm_memo_empty_string_counterexample :
    emptyMemoTx.memo = MemoField.str "" ∧
    confirmContribution emptyMemoEnv raceStore "h0" =
      (Except.error (ServiceError.badRequest
        "Transaction memo is missing. Cannot correlate with a contribution intent."),
       raceStore) := by
  constructor
  · rfl
  · decide

/-- Claim C7 amended: the memo-extraction stage of confirmContribution fails
with BadRequest exactly when the memo of the fetched transaction record is
absent, not a string, or the empty string (extractMemo yields none precisely
in these three cases); on this failure the returned store is exactly the
input store, so no contribution is looked up, marked failed, or otherwise
touched. -/
theorem confirm_memo_extraction_behavior (env : Env) (st : Store) (h : String)
    (tx : TxRecord)
    (hget : env.getTransaction h = some tx) :
    (extractMemo tx = none ↔
      tx.memo = MemoField.absent ∨ tx.memo = MemoField.nonString ∨
      tx.memo = MemoField.str "") ∧
    (extractMemo tx = none →
      confirmContribution env st h =
        (Except.error (ServiceError.badRequest
          "Transaction memo is missing. Cannot correlate with a contribution intent."),
         st)) := by
  constructor
  · unfold extractMemo
    cases hm : tx.memo with
    | absent => simp
    | nonString => simp
    | str v =>
      by_cases hv : v = ""
      · subst hv; simp
      · simp [hv]
  · intro hnone
    have hcheck : confirmCheck env st h =
        (Except.error (ServiceError.badRequest
          "Transaction memo is missing. Cannot correlate with a contribution intent."),
         st) := by
      simp [confirmCheck, hget, hnone]
    simp [confirmContribution, hcheck]

/-- Witness for the amended claim C7: a transaction whose memo field is
absent fails with the memo-missing BadRequest and the store is untouched. -/
theorem confirm_memo_extraction_behavior_witness :
    confirmContribution absentMemoEnv raceStore "hA" =
      (Except.error (ServiceError.badRequest
        "Transaction memo is missing. Cannot correlate with a contribution intent."),
       raceStore) :=
  (confirm_memo_extraction_behavior absentMemoEnv raceStore "hA" absentMemoTx
    (by decide)).2 (by decide)

/-- Claim C8: at the destination stage, confirmContribution selects only the
first payment operation whose destination equals the configured escrow
wallet, and every later check depends on the resolved operations only
through that first match: two runs whose operation lists agree on emptiness
and on the first destination-matching operation (whatever additional
matching operations either list contains) produce identical outcomes.  When
no operation matches, the contribution is marked failed with a reason
mentioning the expected wallet and the call fails with BadRequest. -/
theorem confirm_destination_first_match (env : Env) (st : Store) (h : String)
    (tx : TxRecord) (m : String) (c : SponsorContribution)
    (hget : env.getTransaction h = some tx)
    (hmemo : extractMemo tx = some m)
    (hfind : st.contributions.find?
      (fun x => x.id == m && x.status == ContributionStatus.pending) = some c)
    (hops : (resolvePaymentOperations env tx).isEmpty = false) :
    ((resolvePaymentOperations env tx).find?
        (fun x => x.destination == env.escrowWallet) = none →
      confirmContribution env st h =
        (Except.error (ServiceError.badRequest
          "Payment destination does not match the escrow wallet."),
         markFailed st c
           ("Incorrect destination. Expected " ++ env.escrowWallet ++ ".")) ∧
      ∃ pre post, ("Incorrect destination. Expected " ++ env.escrowWallet ++ ".")
        = pre ++ env.escrowWallet ++ post) ∧
    (∀ env2 tx2, env2.escrowWallet = env.escrowWallet →
      env2.getTransaction h = some tx2 →
      tx2.memo = tx.memo →
      (resolvePaymentOperations env2 tx2).isEmpty = false →
      (resolvePaymentOperations env2 tx2).find?
          (fun x => x.destination == env2.escrowWallet) =
        (resolvePaymentOperations env tx).find?
          (fun x => x.destination == env.escrowWallet) →
      confirmContribution env2 st h = confirmContribution env st h) := by
  constructor
  · intro hdn
    constructor
    · have hcheck : confirmCheck env st h =
          (Except.error (ServiceError.badRequest
            "Payment destination does not match the escrow wallet."),
           markFailed st c
             ("Incorrect destination. Expected " ++ env.escrowWallet ++ ".")) := by
        simp [confirmCheck, hget, hmemo, hfind, hops, hdn]
      simp [confirmContribution, hcheck]
    · exact ⟨"Incorrect destination. Expected ", ".", rfl⟩
  · intro env2 tx2 hesc hget2 hmemo2 hops2 hfindeq
    have hextract : extractMemo tx2 = extractMemo tx := by
      unfold extractMemo; rw [hmemo2]
    have hcc : confirmCheck env2 st h = confirmCheck env st h := by
      cases hd : (resolvePaymentOperations env tx).find?
          (fun x => x.destination == env.escrowWallet) with
      | none =>
        have hd2 := hfindeq.trans hd
        rw [hesc] at hd2
        simp [confirmCheck, hget, hget2, hextract, hmemo, hfind, hops, hops2,
          hd, hd2, hesc]
      | some op =>
        have hd2 := hfindeq.trans hd
        rw [hesc] at hd2
        simp [confirmCheck, hget, hget2, hextract, hmemo, hfind, hops, hops2,
          hd, hd2, hesc]
    unfold confirmContribution
    rw [hcc]

/-- Witness for claim C8: the only payment operation of the transaction pays
GOTHER while the configured escrow wallet is GESCROW, so the confirmation
fails with BadRequest and raceC1 is marked failed with a reason mentioning
the expected wallet. -/
theorem confirm_destination_first_match_witness :
    confirmContribution wrongDestEnv raceStore "h1" =
      (Except.error (ServiceError.badRequest
        "Payment destination does not match the escrow wallet."),
       markFailed raceStore raceC1
         ("Incorrect destination. Expected " ++ wrongDestEnv.escrowWallet ++ ".")) ∧
    ∃ pre post, ("Incorrect destination. Expected " ++ wrongDestEnv.escrowWallet ++ ".")
      = pre ++ wrongDestEnv.escrowWallet ++ post :=
  (confirm_destination_first_match wrongDestEnv raceStore "h1" (txForMemo "c1") "c1"
    raceC1 (by decide) (by decide) (by decide) (by decide)).1 (by decide)

/-- Claim C9: every failure of the secondary fetch of the payment operations
of a transaction (missing operations link, non-ok response, thrown failure)
makes resolvePaymentOperations return the empty list instead of propagating
a distinct error; the pipeline then takes the empty-list branch, marking the
located contribution failed with reason stating no payment operations and
failing with BadRequest. -/
theorem resolve_ops_errors_empty_then_failed :
    (∀ (env : Env) (tx : TxRecord), tx.operationsHref = none →
      resolvePaymentOperations env tx = []) ∧
    (∀ (env : Env) (tx : TxRecord) (href : String), tx.operationsHref = some href →
      env.fetchOperations href = FetchResult.notOk →
      resolvePaymentOperations env tx = []) ∧
    (∀ (env : Env) (tx : TxRecord) (href : String), tx.operationsHref = some href →
      env.fetchOperations href = FetchResult.fetchError →
      resolvePaymentOperations env tx = []) ∧
    (∀ (env : Env) (st : Store) (h : String) (tx : TxRecord) (m : String)
      (c : SponsorContribution),
      env.getTransaction h = some tx →
      extractMemo tx = some m →
      st.contributions.find?
        (fun x => x.id == m && x.status == ContributionStatus.pending) = some c →
      resolvePaymentOperations env tx = [] →
      confirmContribution env st h =
        (Except.error (ServiceError.badRequest
          "Transaction contains no payment operations."),
         markFailed st c "No payment operations in transaction.")) := by
  refine ⟨?_, ?_, ?_, ?_⟩
  · intro env tx hhref
    simp [resolvePaymentOperations, hhref]
  · intro env tx href hhref hfetch
    simp [resolvePaymentOperations, hhref, hfetch]
  · intro env tx href hhref hfetch
    simp [resolvePaymentOperations, hhref, hfetch]
  · intro env st h tx m c hget hmemo hfind hempty
    have hcheck : confirmCheck env st h =
        (Except.error (ServiceError.badRequest
          "Transaction contains no payment operations."),
         markFailed st c "No payment operations in transaction.") := by
      simp [confirmCheck, hget, hmemo, hfind, hempty]
    simp [confirmContribution, hcheck]

/-- Witness for claim C9: the operations fetch answers with a non-ok
response; the operations resolve to the empty list and the confirmation
fails with BadRequest after marking raceC1 failed. -/
theorem resolve_ops_errors_empty_then_failed_witness :
    resolvePaymentOperations notOkEnv (txForMemo "c1") = [] ∧
    confirmContribution notOkEnv raceStore "h1" =
      (Except.error (ServiceError.badRequest
        "Transaction contains no payment operations."),
       markFailed raceStore raceC1 "No payment operations in transaction.") :=
  ⟨resolve_ops_errors_empty_then_failed.2.1 notOkEnv (txForMemo "c1") "ops"
      (by decide) (by decide),
   resolve_ops_errors_empty_then_failed.2.2.2 notOkEnv raceStore "h1"
      (txForMemo "c1") "c1" raceC1 (by decide) (by decide) (by decide) (by decide)⟩

/-- A pending-lookup hit is a row of the store and is pending. -/
theorem find?_pending_facts {st : Store} {m : String} {c : SponsorContribution}
    (hfind : st.contributions.find?
      (fun x => x.id == m && x.status == ContributionStatus.pending) = some c) :
    c ∈ st.contributions ∧ c.status = ContributionStatus.pending := by
  refine ⟨List.mem_of_find?_eq_some hfind, ?_⟩
  have hp := List.find?_some hfind
  simp only [Bool.and_eq_true, beq_iff_eq] at hp
  exact hp.2

/-- Shape of the validation phase: its resulting store is either untouched or
the markFailed of a pending row of the input store, and a successful check
returns a pending row of the untouched store. -/
theorem confirmCheck_spec (env : Env) (st : Store) (h : String) :
    ((confirmCheck env st h).2 = st ∨
     ∃ c reason, (confirmCheck env st h).2 = markFailed st c reason ∧
       c ∈ st.contributions ∧ c.status = ContributionStatus.pending) ∧
    (∀ c, (confirmCheck env st h).1 = Except.ok c →
      (confirmCheck env st h).2 = st ∧ c ∈ st.contributions ∧
      c.status = ContributionStatus.pending) := by
  cases hg : env.getTransaction h with
  | none =>
    have hck : (confirmCheck env st h).2 = st := by simp [confirmCheck, hg]
    exact ⟨Or.inl hck, fun c hc => by simp [confirmCheck, hg] at hc⟩
  | some tx =>
    cases hm : extractMemo tx with
    | none =>
      have hck : (confirmCheck env st h).2 = st := by simp [confirmCheck, hg, hm]
      exact ⟨Or.inl hck, fun c hc => by simp [confirmCheck, hg, hm] at hc⟩
    | some m =>
      cases hf : st.contributions.find?
          (fun x => x.id == m && x.status == ContributionStatus.pending) with
      | none =>
        have hck : (confirmCheck env st h).2 = st := by simp [confirmCheck, hg, hm, hf]
        exact ⟨Or.inl hck, fun c hc => by simp [confirmCheck, hg, hm, hf] at hc⟩
      | some contribution =>
        have hfacts := find?_pending_facts hf
        cases he : (resolvePaymentOperations env tx).isEmpty with
        | true =>
          have hck : (confirmCheck env st h).2 =
              markFailed st contribution "No payment operations in transaction." := by
            simp [confirmCheck, hg, hm, hf, he]
          exact ⟨Or.inr ⟨contribution, _, hck, hfacts.1, hfacts.2⟩,
            fun c hc => by simp [confirmCheck, hg, hm, hf, he] at hc⟩
        | false =>
          cases hd : (resolvePaymentOperations env tx).find?
              (fun x => x.destination == env.escrowWallet) with
          | none =>
            have hck : (confirmCheck env st h).2 = markFailed st contribution
                ("Incorrect destination. Expected " ++ env.escrowWallet ++ ".") := by
              simp [confirmCheck, hg, hm, hf, he, hd]
            exact ⟨Or.inr ⟨contribution, _, hck, hfacts.1, hfacts.2⟩,
              fun c hc => by simp [confirmCheck, hg, hm, hf, he, hd] at hc⟩
          | some op =>
            cases ha : SUPPORTED_ASSETS.contains (toUpperString
                (if op.asset_type == "native" then "XLM"
                 else op.asset_code.getD "")) with
            | false =>
              have hck : (confirmCheck env st h).2 = markFailed st contribution
                  ("Unsupported asset \"" ++
                    (if op.asset_type == "native" then "XLM"
                     else op.asset_code.getD "") ++ "\".") := by
                simp only [confirmCheck, hg, hm, hf, he, hd, ha]
                simp
              exact ⟨Or.inr ⟨contribution, _, hck, hfacts.1, hfacts.2⟩,
                fun c hc => by
                  simp only [confirmCheck, hg, hm, hf, he, hd, ha] at hc
                  simp at hc⟩
            | true =>
              by_cases hlt : amountEpsilon < |op.amount - contribution.amount|
              · have hck : (confirmCheck env st h).2 = markFailed st contribution
                    ("Incorrect amount. Expected " ++ toString contribution.amount ++
                     ", got " ++ toString op.amount ++ ".") := by
                  simp only [confirmCheck, hg, hm, hf, he, hd, ha]
                  simp [hlt]
                refine ⟨Or.inr ⟨contribution, _, hck, hfacts.1, hfacts.2⟩,
                  fun c hc => ?_⟩
                simp only [confirmCheck, hg, hm, hf, he, hd, ha] at hc
                simp [hlt] at hc
              · cases ht : st.tiers.find? (fun t => t.id == contribution.tierId) with
                | none =>
                  have hck : (confirmCheck env st h).2 = st := by
                    simp only [confirmCheck, hg, hm, hf, he, hd, ha]
                    simp [hlt, ht]
                  refine ⟨Or.inl hck, fun c hc => ?_⟩
                  simp only [confirmCheck, hg, hm, hf, he, hd, ha] at hc
                  simp [hlt, ht] at hc
                | some tier =>
                  by_cases hcap : tier.maxSponsors ≤ countConfirmed st tier.id
                      (some contribution.id)
                  · have hck : (confirmCheck env st h).2 = st := by
                      simp only [confirmCheck, hg, hm, hf, he, hd, ha]
                      simp [hlt, ht, assertCapacityAvailable, hcap]
                    refine ⟨Or.inl hck, fun c hc => ?_⟩
                    simp only [confirmCheck, hg, hm, hf, he, hd, ha] at hc
                    simp [hlt, ht, assertCapacityAvailable, hcap] at hc
                  · have hck : confirmCheck env st h = (Except.ok contribution, st) := by
                      simp only [confirmCheck, hg, hm, hf, he, hd, ha]
                      simp [hlt, ht, assertCapacityAvailable, hcap]
                    refine ⟨Or.inl (by rw [hck]), fun c hc => ?_⟩
                    rw [hck] at hc
                    simp at hc
                    rw [hck, ← hc]
                    exact ⟨rfl, hfacts.1, hfacts.2⟩

/-- markFailed keeps the hash-only-if-confirmed invariant when the marked
contribution carries no transaction hash. -/
theorem hashInv_markFailed (st : Store) (c : SponsorContribution) (reason : String)
    (hinv : HashInv st) (hnull : c.transactionHash = none) :
    HashInv (markFailed st c reason) := by
  intro x hx hhash
  simp only [markFailed, saveContribution, List.mem_map] at hx
  obtain ⟨y, hy, hxy⟩ := hx
  split at hxy
  · rw [← hxy] at hhash
    simp [hnull] at hhash
  · rw [← hxy] at hhash ⊢
    exact hinv y hy hhash

/-- The commit phase keeps the hash-only-if-confirmed invariant: the replaced
rows are confirmed and every other row is unchanged. -/
theorem hashInv_confirmCommit (st : Store) (h : String) (c : SponsorContribution)
    (hinv : HashInv st) : HashInv (confirmCommit st h c).2 := by
  intro x hx hhash
  simp only [confirmCommit, saveContribution, List.mem_map] at hx
  obtain ⟨y, hy, hxy⟩ := hx
  split at hxy
  · rw [← hxy]
  · rw [← hxy] at hhash ⊢
    exact hinv y hy hhash

/-- Claim C10: markFailed changes only the status field of the contribution
it marks: every replaced row is the input row with status failed, keeping
transactionHash (null on every reachable failure path), amount, sponsorId,
tierId and id; consequently createIntent and confirmContribution preserve
the invariant HashInv that a contribution carries a transaction hash only if
its status is confirmed. -/
theorem markFailed_frame_and_hash_invariant :
    (∀ (st : Store) (c : SponsorContribution) (reason : String),
      (markFailed st c reason).contributions =
        st.contributions.map (fun x =>
          if x.id == c.id then { c with status := ContributionStatus.failed } else x) ∧
      ({ c with status := ContributionStatus.failed } : SponsorContribution).transactionHash
        = c.transactionHash ∧
      ({ c with status := ContributionStatus.failed } : SponsorContribution).amount
        = c.amount ∧
      ({ c with status := ContributionStatus.failed } : SponsorContribution).sponsorId
        = c.sponsorId ∧
      ({ c with status := ContributionStatus.failed } : SponsorContribution).tierId
        = c.tierId ∧
      ({ c with status := ContributionStatus.failed } : SponsorContribution).id = c.id) ∧
    (∀ (env : Env) (st : Store) (tierId sponsorId newId : String),
      HashInv st → HashInv (createIntent env st tierId sponsorId newId).2) ∧
    (∀ (env : Env) (st : Store) (h : String),
      HashInv st → HashInv (confirmContribution env st h).2) := by
  refine ⟨?_, ?_, ?_⟩
  · intro st c reason
    exact ⟨rfl, rfl, rfl, rfl, rfl, rfl⟩
  · intro env st tierId sponsorId newId hinv
    cases hft : st.tiers.find? (fun t => t.id == tierId) with
    | none =>
      have hst : (createIntent env st tierId sponsorId newId).2 = st := by
        simp [createIntent, getTierById, hft]
      rw [hst]; exact hinv
    | some tier =>
      by_cases hcap : tier.maxSponsors ≤ countConfirmed st tier.id none
      · have hst : (createIntent env st tierId sponsorId newId).2 = st := by
          simp [createIntent, getTierById, hft, assertCapacityAvailable, hcap]
        rw [hst]; exact hinv
      · have hst : (createIntent env st tierId sponsorId newId).2.contributions =
            st.contributions ++
              [{ id := newId, sponsorId := sponsorId, tierId := tierId,
                 amount := tier.price, transactionHash := none,
                 status := ContributionStatus.pending }] := by
          simp [createIntent, getTierById, hft, assertCapacityAvailable, hcap]
        intro c hc hhash
        rw [hst] at hc
        rcases List.mem_append.mp hc with hin | hnew
        · exact hinv c hin hhash
        · simp at hnew
          rw [hnew] at hhash
          simp at hhash
  · intro env st h hinv
    obtain ⟨hstate, hok⟩ := confirmCheck_spec env st h
    have hfin : (confirmContribution env st h).2 =
        match (confirmCheck env st h).1 with
        | Except.error _ => (confirmCheck env st h).2
        | Except.ok c => (confirmCommit (confirmCheck env st h).2 h c).2 := by
      cases hcc : confirmCheck env st h with
      | mk r st1 =>
        cases r with
        | error e => simp [confirmContribution, hcc]
        | ok c => simp [confirmContribution, hcc]
    cases hr : (confirmCheck env st h).1 with
    | error e =>
      rw [hfin, hr]
      rcases hstate with hst | ⟨c, reason, hmk, hcmem, hcpend⟩
      · rw [hst]; exact hinv
      · rw [hmk]
        refine hashInv_markFailed st c reason hinv ?_
        by_contra hnn
        have hconf := hinv c hcmem hnn
        rw [hcpend] at hconf
        exact absurd hconf (by decide)
    | ok c =>
      rw [hfin, hr]
      obtain ⟨hst1, hcmem, hcpend⟩ := hok c hr
      rw [hst1]
      exact hashInv_confirmCommit st h c hinv

/-- Witness for claim C10: raceStore satisfies the hash invariant and so does
the store produced by a full confirmation of raceC1. -/
theorem markFailed_frame_and_hash_invariant_witness :
    HashInv (confirmContribution raceEnv raceStore "h1").2 :=
  markFailed_frame_and_hash_invariant.2.2 raceEnv raceStore "h1"
    (by unfold HashInv; decide)

/-- Claim C1 fails on the code: the capacity re-check and the commit of
confirmContribution are separate awaited store operations (source lines
188-194), so two in-flight confirmations of distinct pending contributions
of the same one-slot tier can both run their validation phase against the
same store state before either commit is written.  Starting from a store
holding only tierGold, two createIntent invocations produce the two pending
contributions; both validation phases then succeed on that store (writing
nothing), and after both commits the tier t1 holds two confirmed
contributions while tierGold.maxSponsors is one: the capacity invariant is
violated under this interleaving of the two confirmations. -/
theorem capacity_exceeded_by_interleaved_confirms :
    intentStore2.contributions = [raceC1, raceC2] ∧
    confirmCheck raceEnv intentStore2 "h1" = (Except.ok raceC1, intentStore2) ∧
    confirmCheck raceEnv intentStore2 "h2" = (Except.ok raceC2, intentStore2) ∧
    countConfirmed
      (confirmCommit (confirmCommit intentStore2 "h1" raceC1).2 "h2" raceC2).2
      "t1" none = 2 ∧
    tierGold.maxSponsors = 1 := by
  have hlt1 : ¬(amountEpsilon < |opNative.amount - raceC1.amount|) := by
    norm_num [opNative, raceC1, amountEpsilon]
  have hlt2 : ¬(amountEpsilon < |opNative.amount - raceC2.amount|) := by
    norm_num [opNative, raceC2, amountEpsilon]
  refine ⟨by decide, ?_, ?_, by decide, by decide⟩
  · have hget : raceEnv.getTransaction "h1" = some (txForMemo "c1") := by decide
    have hmemo : extractMemo (txForMemo "c1") = some "c1" := by decide
    have hfind : intentStore2.contributions.find?
        (fun x => x.id == "c1" && x.status == ContributionStatus.pending) =
          some raceC1 := by decide
    have hops : (resolvePaymentOperations raceEnv (txForMemo "c1")).isEmpty = false := by
      decide
    have hdest : (resolvePaymentOperations raceEnv (txForMemo "c1")).find?
        (fun x => x.destination == raceEnv.escrowWallet) = some opNative := rfl
    have ha : SUPPORTED_ASSETS.contains (toUpperString
        (if opNative.asset_type == "native" then "XLM"
         else opNative.asset_code.getD "")) = true := by decide
    have ht : intentStore2.tiers.find? (fun t => t.id == raceC1.tierId) =
        some tierGold := by decide
    have hcap : ¬(tierGold.maxSponsors ≤ countConfirmed intentStore2 tierGold.id
        (some raceC1.id)) := by decide
    simp only [confirmCheck, hget, hmemo, hfind, hops, hdest, ha]
    simp [hlt1, ht, assertCapacityAvailable, hcap]
  · have hget : raceEnv.getTransaction "h2" = some (txForMemo "c2") := by decide
    have hmemo : extractMemo (txForMemo "c2") = some "c2" := by decide
    have hfind : intentStore2.contributions.find?
        (fun x => x.id == "c2" && x.status == ContributionStatus.pending) =
          some raceC2 := by decide
    have hops : (resolvePaymentOperations raceEnv (txForMemo "c2")).isEmpty = false := by
      decide
    have hdest : (resolvePaymentOperations raceEnv (txForMemo "c2")).find?
        (fun x => x.destination == raceEnv.escrowWallet) = some opNative := rfl
    have ha : SUPPORTED_ASSETS.contains (toUpperString
        (if opNative.asset_type == "native" then "XLM"
         else opNative.asset_code.getD "")) = true := by decide
    have ht : intentStore2.tiers.find? (fun t => t.id == raceC2.tierId) =
        some tierGold := by decide
    have hcap : ¬(tierGold.maxSponsors ≤ countConfirmed intentStore2 tierGold.id
        (some raceC2.id)) := by decide
    simp only [confirmCheck, hget, hmemo, hfind, hops, hdest, ha]
    simp [hlt2, ht, assertCapacityAvailable, hcap]
